import Mathlib

/-!
# Verification of the discord-flight-bot core (src/bot.py)

Shallow embedding of the pure core of `src/bot.py`:

* the schedule row extractor `parse_fr24` (the BeautifulSoup step — turning
  markup into rows of `<td>` texts — is the external "markup supplier" of the
  spec; the embedding takes the table as `List (List String)`, one inner list
  per `<tr>`, already stripped, exactly what the Python loop iterates over);
* the next-flight selector `get_next_two_flights` (Python's ambient
  `date.today().isoformat()` becomes the explicit `today : String` argument;
  `list.sort` is stable, modelled by `List.insertionSort`, which is stable for
  the same key preorder and therefore extensionally equal);
* the FlightAware resolver `get_fa_instance` (the HTTP layer is external: the
  embedding takes the response — status code plus decoded flight list — as an
  argument; `parse_iso` on the UTC timestamp strings is absorbed into the
  field types, which hold the parsed instants as seconds since the Unix epoch,
  `Option` for JSON null/absent/empty just as Python's
  `parse_iso(f.get(...))` yields `None` for those);
* the status embed renderer `status_embed` (the module-level OpenFlights
  dictionaries `AIRPORTS`/`AIRLINES_*`/`PLANES` and `datetime.now` become the
  explicit `Lookups` and `now` arguments).

Timestamps are `Int` seconds since the Unix epoch (UTC). The operator
timezone `America/Los_Angeles` is modelled with the post-2007 US DST rule
(PDT from the second Sunday of March 02:00 standard time to the first Sunday
of November 02:00 daylight time), via the standard civil-from-days /
days-from-civil calendar algorithms.

`datetime.fromisoformat` is modelled on the grammar actually produced by the
schedule source and the resolver's date argument: extended-format dates
`YYYY-MM-DD` (calendar-validated, year 0001–9999) and times
`HH[:MM[:SS[.frac]]]` with `.`/`,` fractions truncated to microseconds; as in
CPython, the first ten characters are the date and the character at index 10
is an arbitrary separator, and parse failure raises (modelled as `none`).
-/

/-! ## Calendar and the operator timezone (America/Los_Angeles) -/

/-- A civil calendar date (proleptic Gregorian). -/
structure Date where
  y : Int
  m : Nat
  d : Nat
deriving DecidableEq, Repr

def isLeap (y : Int) : Bool :=
  y % 4 = 0 && (y % 100 != 0 || y % 400 = 0)

def daysInMonth (y : Int) (m : Nat) : Nat :=
  if m = 2 then (if isLeap y then 29 else 28)
  else if m = 4 || m = 6 || m = 9 || m = 11 then 30
  else 31

/-- Days since 1970-01-01 of a civil date (Hinnant's `days_from_civil`). -/
def days_from_civil (y0 : Int) (m d : Nat) : Int :=
  let y : Int := if m ≤ 2 then y0 - 1 else y0
  let era : Int := Int.fdiv y 400
  let yoe : Nat := (y - era * 400).toNat
  let mp : Nat := if 2 < m then m - 3 else m + 9
  let doy : Nat := (153 * mp + 2) / 5 + d - 1
  let doe : Nat := yoe * 365 + yoe / 4 - yoe / 100 + doy
  era * 146097 + (doe : Int) - 719468

/-- Civil date of a count of days since 1970-01-01 (Hinnant's `civil_from_days`). -/
def civil_from_days (z0 : Int) : Date :=
  let z := z0 + 719468
  let era : Int := Int.fdiv z 146097
  let doe : Nat := (z - era * 146097).toNat
  let yoe : Nat := (doe - doe / 1460 + doe / 36524 - doe / 146096) / 365
  let y0 : Int := (yoe : Int) + era * 400
  let doy : Nat := doe - (365 * yoe + yoe / 4 - yoe / 100)
  let mp : Nat := (5 * doy + 2) / 153
  let d : Nat := doy - (153 * mp + 2) / 5 + 1
  let m : Nat := if mp < 10 then mp + 3 else mp - 9
  { y := if m ≤ 2 then y0 + 1 else y0, m := m, d := d }

/-- Day of week of a day count; 0 = Sunday (1970-01-01 was a Thursday). -/
def dayOfWeek (z : Int) : Nat :=
  ((z + 4).emod 7).toNat

def firstSundayOnOrAfter (z : Int) : Int :=
  z + (((7 - dayOfWeek z) % 7 : Nat) : Int)

/-- Instant (UTC seconds) when US DST starts in year `y`:
second Sunday of March, 02:00 PST = 10:00 UTC. -/
def dstStartUTC (y : Int) : Int :=
  (firstSundayOnOrAfter (days_from_civil y 3 1) + 7) * 86400 + 10 * 3600

/-- Instant (UTC seconds) when US DST ends in year `y`:
first Sunday of November, 02:00 PDT = 9:00 UTC. -/
def dstEndUTC (y : Int) : Int :=
  firstSundayOnOrAfter (days_from_civil y 11 1) * 86400 + 9 * 3600

/-- UTC offset, in seconds, of `America/Los_Angeles` at UTC instant `t`
(post-2007 rule; DST boundaries are far from New Year, so the UTC year of
`t` determines the rule year). -/
def pacOffset (t : Int) : Int :=
  let y := (civil_from_days (Int.fdiv t 86400)).y
  if dstStartUTC y ≤ t ∧ t < dstEndUTC y then -25200 else -28800

/-- `off.astimezone(LOCAL_TZ).date()`: local calendar date of a UTC instant. -/
def localDate (t : Int) : Date :=
  civil_from_days (Int.fdiv (t + pacOffset t) 86400)

/-- UTC instant (seconds since epoch) of a civil UTC date and wall time. -/
def utc (y : Int) (m d hh mi : Nat) : Int :=
  days_from_civil y m d * 86400 + hh * 3600 + mi * 60

/-! ## `datetime.fromisoformat` model -/

def digitVal (c : Char) : Nat := c.toNat - 48

/-- The `YYYY-MM-DD` slice of `fromisoformat`, with `datetime.date`'s
calendar and year-range validation. -/
def parse_date (s : String) : Option Date :=
  match s.data with
  | [y1, y2, y3, y4, '-', m1, m2, '-', d1, d2] =>
    if y1.isDigit && y2.isDigit && y3.isDigit && y4.isDigit &&
        m1.isDigit && m2.isDigit && d1.isDigit && d2.isDigit then
      let y : Int := (digitVal y1 * 1000 + digitVal y2 * 100 + digitVal y3 * 10 + digitVal y4 : Nat)
      let m := digitVal m1 * 10 + digitVal m2
      let d := digitVal d1 * 10 + digitVal d2
      if 1 ≤ y ∧ 1 ≤ m ∧ m ≤ 12 ∧ 1 ≤ d ∧ d ≤ daysInMonth y m then
        some { y := y, m := m, d := d }
      else none
    else none
  | _ => none

/-- A wall-clock time of day with microseconds. -/
structure Time where
  h : Nat
  mi : Nat
  s : Nat
  us : Nat
deriving DecidableEq, Repr

/-- Fractional seconds: one or more digits, truncated (not rounded) to, and
right-padded to, microseconds — as `fromisoformat` does. -/
def parse_frac (cs : List Char) : Option Nat :=
  if cs ≠ [] ∧ cs.all Char.isDigit then
    let ds := (cs.map digitVal).take 6
    let six := ds ++ List.replicate (6 - ds.length) 0
    some (six.foldl (fun a d => a * 10 + d) 0)
  else none

/-- The time slice of `fromisoformat`: `HH`, `HH:MM`, `HH:MM:SS`, or
`HH:MM:SS` followed by a `.`/`,` fraction. -/
def parse_time (s : String) : Option Time :=
  match s.data with
  | [h1, h2] =>
    if h1.isDigit && h2.isDigit && digitVal h1 * 10 + digitVal h2 ≤ 23 then
      some { h := digitVal h1 * 10 + digitVal h2, mi := 0, s := 0, us := 0 }
    else none
  | [h1, h2, ':', m1, m2] =>
    if h1.isDigit && h2.isDigit && m1.isDigit && m2.isDigit &&
        digitVal h1 * 10 + digitVal h2 ≤ 23 && digitVal m1 * 10 + digitVal m2 ≤ 59 then
      some { h := digitVal h1 * 10 + digitVal h2, mi := digitVal m1 * 10 + digitVal m2,
             s := 0, us := 0 }
    else none
  | h1 :: h2 :: ':' :: m1 :: m2 :: ':' :: s1 :: s2 :: rest =>
    if h1.isDigit && h2.isDigit && m1.isDigit && m2.isDigit && s1.isDigit && s2.isDigit &&
        digitVal h1 * 10 + digitVal h2 ≤ 23 && digitVal m1 * 10 + digitVal m2 ≤ 59 &&
        digitVal s1 * 10 + digitVal s2 ≤ 59 then
      match rest with
      | [] =>
        some { h := digitVal h1 * 10 + digitVal h2, mi := digitVal m1 * 10 + digitVal m2,
               s := digitVal s1 * 10 + digitVal s2, us := 0 }
      | sep :: frac =>
        if sep = '.' ∨ sep = ',' then
          match parse_frac frac with
          | some us =>
            some { h := digitVal h1 * 10 + digitVal h2, mi := digitVal m1 * 10 + digitVal m2,
                   s := digitVal s1 * 10 + digitVal s2, us := us }
          | none => none
        else none
    else none
  | _ => none

/-- `datetime.fromisoformat` on a date-and-time string: as in CPython, the
first ten characters are the date, the character at index 10 is an arbitrary
single-character separator, and the remainder is the time. -/
def parse_dt (str : String) : Option (Date × Time) :=
  let cs := str.data
  if cs.length ≤ 10 then
    (parse_date str).map (fun d => (d, { h := 0, mi := 0, s := 0, us := 0 }))
  else
    match parse_date (String.mk (cs.take 10)), parse_time (String.mk (cs.drop 11)) with
    | some d, some t => some (d, t)
    | _, _ => none

/-- Injective, lexicographically monotone encoding of a (valid) datetime. -/
def dtKey (d : Date) (t : Time) : Nat :=
  ((((((d.y.toNat) * 12 + (d.m - 1)) * 31 + (d.d - 1)) * 24 + t.h) * 60 + t.mi) * 60 + t.s)
      * 1000000 + t.us

/-- The key of `datetime.max = 9999-12-31 23:59:59.999999`. -/
def dtMaxKey : Nat :=
  dtKey { y := 9999, m := 12, d := 31 } { h := 23, mi := 59, s := 59, us := 999999 }

/-! ## Schedule Row Extractor: `parse_fr24` -/

/-- One emitted schedule leg (the dict built inside `parse_fr24`).  `reg`,
`dist` and `seat` are `tds[i] or None`: `none` when the cell text is empty. -/
structure Leg where
  date : String
  flight : String
  reg : Option String
  origin : String
  dest : String
  dist : Option String
  sched_dep : String
  sched_arr : String
  airline : String
  aircraft : String
  seat : Option String
deriving DecidableEq, Repr

/-- Python's `x or None` on a string: `None` exactly when the string is empty. -/
def optStr (s : String) : Option String :=
  if s = "" then none else some s

/-- The dict literal appended for an accepted row (cells indexed 0–10). -/
def rowToLeg (tds : List String) : Leg :=
  { date := tds.getD 0 ""
    flight := tds.getD 1 ""
    reg := optStr (tds.getD 2 "")
    origin := tds.getD 3 ""
    dest := tds.getD 4 ""
    dist := optStr (tds.getD 5 "")
    sched_dep := tds.getD 6 ""
    sched_arr := tds.getD 7 ""
    airline := tds.getD 8 ""
    aircraft := tds.getD 9 ""
    seat := optStr (tds.getD 10 "") }

/-- `parse_fr24`, over the stripped `<td>` texts of each `<tr>`: the loop
skips a row exactly when `len(tds) < 11`, and appends the dict otherwise. -/
def parse_fr24 : List (List String) → List Leg
  | [] => []
  | tds :: rest =>
    if tds.length < 11 then parse_fr24 rest
    else rowToLeg tds :: parse_fr24 rest

/-- Stated from the spec's words: a strict `YYYY-MM-DD` date pattern. -/
def isYYYYMMDD (s : String) : Bool :=
  match s.data with
  | [y1, y2, y3, y4, c1, m1, m2, c2, d1, d2] =>
    y1.isDigit && y2.isDigit && y3.isDigit && y4.isDigit && c1 = '-' &&
      m1.isDigit && m2.isDigit && c2 = '-' && d1.isDigit && d2.isDigit
  | _ => false

/-! ## Next-Flight Selector: `get_next_two_flights` -/

/-- `flight_dt` from `get_next_two_flights`:
`datetime.fromisoformat(f"{f['date']} {f['sched_dep']}")`, with a raised
`ValueError` caught and replaced by `datetime.max`. -/
def flight_dt (f : Leg) : Nat :=
  match parse_dt (f.date ++ " " ++ f.sched_dep) with
  | some (d, t) => dtKey d t
  | none => dtMaxKey

/-- The sort key preorder used by `future.sort(key=flight_dt)`. -/
def legKeyLe (a b : Leg) : Prop := flight_dt a ≤ flight_dt b

instance : DecidableRel legKeyLe := fun a b => Nat.decLe (flight_dt a) (flight_dt b)

instance : IsTotal Leg legKeyLe := ⟨fun a b => Nat.le_total (flight_dt a) (flight_dt b)⟩

instance : IsTrans Leg legKeyLe := ⟨fun _ _ _ => Nat.le_trans⟩

/-- Python's `list.sort` is a stable sort; so is insertion sort for the same
total key preorder, and a stable sort of a list under a total preorder is
unique, so the two agree extensionally. -/
def sortK (l : List Leg) : List Leg := List.insertionSort legKeyLe l

/-- Python's `<=` on strings: lexicographic by code point. -/
def pyLeAux : List Char → List Char → Bool
  | [], _ => true
  | _ :: _, [] => false
  | a :: as, b :: bs =>
    if a.toNat < b.toNat then true
    else if a.toNat = b.toNat then pyLeAux as bs
    else false

def pyLe (s t : String) : Bool := pyLeAux s.data t.data

/-- `[f for f in flights if f["date"] >= today]` — Python compares the date
strings lexicographically by code point. -/
def futureOf (today : String) (flights : List Leg) : List Leg :=
  flights.filter (fun f => pyLe today f.date)

/-- `get_next_two_flights`, with the ambient `date.today().isoformat()` made
the explicit `today` argument. -/
def get_next_two_flights (today : String) (flights : List Leg) :
    Option Leg × Option Leg :=
  let future := futureOf today flights
  if future.isEmpty then (none, none)
  else
    let s := sortK future
    (s.head?, s[1]?)

/-- Stated from the spec's words, for comparison: identical, except that a
leg whose fields fail to parse gets a key *strictly* greater than every
parseable key, so it sorts after all parseable legs. -/
def specFlightKey (f : Leg) : Nat :=
  match parse_dt (f.date ++ " " ++ f.sched_dep) with
  | some (d, t) => dtKey d t
  | none => dtMaxKey + 1

def specKeyLe (a b : Leg) : Prop := specFlightKey a ≤ specFlightKey b

instance : DecidableRel specKeyLe := fun a b => Nat.decLe (specFlightKey a) (specFlightKey b)

/-- The Next-Flight Selector as the spec words it. -/
def specNextTwo (today : String) (flights : List Leg) : Option Leg × Option Leg :=
  let future := futureOf today flights
  if future.isEmpty then (none, none)
  else
    let s := List.insertionSort specKeyLe future
    (s.head?, s[1]?)

/-! ## Flight Instance Resolver: `get_fa_instance` -/

/-- One FlightAware /flights/{ident} element, with the timestamp fields
already through `parse_iso`: `Option Int` is a UTC instant in seconds since
the epoch, `none` for JSON null/absent/empty. -/
structure FAFlight where
  scheduled_off : Option Int
  estimated_off : Option Int
  actual_on : Option Int
  status : Option String
  fa_flight_id : Option String
deriving DecidableEq, Repr

/-- The FlightAware window-query response: HTTP status code and the decoded
`flights` list (`[]` when the key is absent). -/
structure FAResponse where
  status_code : Nat
  flights : List FAFlight
deriving DecidableEq, Repr

/-- `parse_iso(f.get("scheduled_off")) or parse_iso(f.get("estimated_off"))`
(a parsed datetime is always truthy, so Python's `or` is `Option.orElse`). -/
def schedOrEst (f : FAFlight) : Option Int :=
  f.scheduled_off.orElse (fun _ => f.estimated_off)

/-- The candidate-collecting loop of `get_fa_instance`: skip anything already
landed (`actual_on` non-null), skip anything with no scheduled-or-estimated
departure, skip anything whose local departure date differs from `target`;
append `(off_local, f)` otherwise.  `astimezone` preserves the instant, so
the pair's first component is the instant itself; its local calendar date is
`localDate`. -/
def faCandidates (target : Date) : List FAFlight → List (Int × FAFlight)
  | [] => []
  | f :: fs =>
    if f.actual_on.isSome then faCandidates target fs
    else
      match schedOrEst f with
      | none => faCandidates target fs
      | some off =>
        if localDate off ≠ target then faCandidates target fs
        else (off, f) :: faCandidates target fs

/-- The sort key preorder of `candidates.sort(key=lambda x: x[0])`
(aware-datetime comparison is instant comparison). -/
def candKeyLe (a b : Int × FAFlight) : Prop := a.1 ≤ b.1

instance : DecidableRel candKeyLe := fun a b => Int.decLe a.1 b.1

/-- `get_fa_instance` past the HTTP call: the strict-date disambiguation on
an already-obtained window response.  `none` is the `return None` paths. -/
def get_fa_instance_on (target : Date) (resp : FAResponse) : Option FAFlight :=
  if resp.status_code ≠ 200 then none
  else
    let cands := faCandidates target resp.flights
    if cands.isEmpty then none
    else ((List.insertionSort candKeyLe cands).head?).map (fun c => c.2)

/-- `get_fa_instance(flight_no, fr24_date)` including the
`datetime.fromisoformat(fr24_date).date()` step; the outer `none` is the
`ValueError` raised before any query when `fr24_date` does not parse.  (The
query window `[d − 12h, d + 36h]` only shapes the request; the response is
an argument here, quantified over all contents.) -/
def get_fa_instance (fr24_date : String) (resp : FAResponse) :
    Option (Option FAFlight) :=
  match parse_date fr24_date with
  | none => none
  | some target => some (get_fa_instance_on target resp)

/-! ## Status Publisher: `status_embed` -/

/-- An `AIRPORTS` entry. -/
structure AirportRec where
  name : String
  city : String
  country : String
deriving DecidableEq, Repr

/-- An `AIRLINES_IATA`/`AIRLINES_ICAO` entry (the `iata`/`icao` keys of the
Python dict are never read by the renderer and are omitted). -/
structure AirlineRec where
  name : String
  country : String
deriving DecidableEq, Repr

/-- The module-level OpenFlights dictionaries, as explicit lookups. -/
structure Lookups where
  airports : String → Option AirportRec
  airlines_icao : String → Option AirlineRec
  airlines_iata : String → Option AirlineRec
  planes : String → Option String

def format_airport (L : Lookups) (code : String) : String :=
  if code = "" then "‚Äî"
  else
    let code := code.toUpper
    match L.airports code with
    | none => code
    | some a =>
      let parts := [a.name] ++ (if a.city ≠ "" then [a.city] else [])
          ++ (if a.country ≠ "" then [a.country] else [])
      String.intercalate ", " parts ++ " (" ++ code ++ ")"

def format_airline (L : Lookups) (code : String) : String :=
  if code = "" then "‚Äî"
  else
    let code := code.toUpper
    match (L.airlines_icao code).orElse (fun _ => L.airlines_iata code) with
    | none => code
    | some a =>
      if a.country ≠ "" then a.name ++ ", " ++ a.country ++ " (" ++ code ++ ")"
      else a.name ++ " (" ++ code ++ ")"

def format_aircraft (L : Lookups) (code : String) : String :=
  if code = "" then "‚Äî"
  else
    let code := code.toUpper
    match L.planes code with
    | some name => name ++ " (" ++ code ++ ")"
    | none => code

/-- `countdown(dt)`, with `datetime.now` the explicit `now` argument;
`delta.total_seconds() // 60` floors, and `max(0, ·)` clamps. -/
def countdown (now : Int) (dt : Option Int) : String :=
  match dt with
  | none => "‚Äî"
  | some t =>
    let mins : Nat := (max 0 (Int.fdiv (t - now) 60)).toNat
    let h := mins / 60
    let m := mins % 60
    if h ≠ 0 then toString h ++ "h " ++ toString m ++ "m"
    else toString m ++ "m"

structure EmbedField where
  name : String
  value : String
  inline : Bool
deriving DecidableEq, Repr

/-- A rendered display payload (`discord.Embed`; the constant blurple color
carries no information and is omitted). -/
structure Embed where
  title : String
  description : Option String
  fields : List EmbedField
  footer : Option String
deriving DecidableEq, Repr

/-- `status_embed(fr, fa, after)`.  `if not fr` is `fr = none` (a leg dict
from `parse_fr24` always has 11 keys, hence is truthy); the truthiness tests
on `reg`/`seat`/`dist` cells are `isSome`, since `optStr` never yields
`some ""`. -/
def status_embed (L : Lookups) (now : Int) (fr : Option Leg) (fa : Option FAFlight)
    (after : Option Leg) : Embed :=
  match fr with
  | none =>
    { title := "üß≠ Hana‚Äôs Next Flight"
      description := some "No upcoming flights detected."
      fields := []
      footer := none }
  | some fr =>
    let base : List EmbedField :=
      [{ name := "Scheduled",
         value := fr.date ++ " ¬∑ " ++ fr.sched_dep ++ " ‚Üí " ++ fr.sched_arr,
         inline := false },
       { name := "Airline", value := format_airline L fr.airline, inline := true },
       { name := "Aircraft", value := format_aircraft L fr.aircraft, inline := true }]
      ++ (match fr.reg with
          | some r => [{ name := "Registration", value := r, inline := true }]
          | none => [])
      ++ (match fr.seat with
          | some s => [{ name := "Seat", value := s, inline := true }]
          | none => [])
      ++ (match fr.dist with
          | some dv => [{ name := "Distance", value := dv, inline := true }]
          | none => [])
    let faFields : List EmbedField :=
      match fa with
      | some fa =>
        let off := (fa.scheduled_off).orElse (fun _ => fa.estimated_off)
        [{ name := "Departs in", value := countdown now off, inline := true },
         { name := "Status", value := fa.status.getD "Scheduled", inline := true }]
        ++ (match fa.fa_flight_id with
            | some fid =>
              [{ name := "Live map",
                 value := "[Open on FlightAware](https://flightaware.com/live/flight/id/"
                   ++ fid ++ ")",
                 inline := false }]
            | none => [])
      | none =>
        [{ name := "Status",
           value := "üìÖ **Flight confirmed**\n‚è≥ Timing pending from FlightAware",
           inline := false }]
    let afterFields : List EmbedField :=
      match after with
      | some a =>
        let lines := ["**" ++ a.flight ++ "**",
            format_airport L a.origin ++ " ‚Üí " ++ format_airport L a.dest,
            a.date ++ " ¬∑ " ++ a.sched_dep ++ " ‚Üí " ++ a.sched_arr,
            "Airline: " ++ format_airline L a.airline,
            "Aircraft: " ++ format_aircraft L a.aircraft]
          ++ (match a.reg with | some r => ["Registration: " ++ r] | none => [])
          ++ (match a.seat with | some s => ["Seat: " ++ s] | none => [])
          ++ (match a.dist with | some dv => ["Distance: " ++ dv] | none => [])
        [{ name := "üóìÔ∏è After that", value := String.intercalate "\n" lines,
           inline := false }]
      | none => []
    { title := "üß≠ Hana‚Äôs Next Flight"
      description := some ("**" ++ fr.flight ++ "**\n"
        ++ format_airport L fr.origin ++ " ‚Üí " ++ format_airport L fr.dest)
      fields := base ++ faFields ++ afterFields
      footer := some "This message updates automatically." }

/-! ## Milestone Tracker (not present in src/bot.py) -/

/-- Modelled from the spec: the durable `TrackedFlight` record of §3 — the
Milestone Tracker component (§4.4) is absent from `src/bot.py`, which only
implements the status-publisher loop.  Arrival notification and deletion are
atomic per the spec, so no `arrivalNotified` flag is observable and none is
modelled. -/
structure TrackedFlight where
  channel : Nat
  flight : String
  fdate : String
  departureNotified : Bool
deriving DecidableEq, Repr

/-- Modelled from the spec: what one poll tick observes for one tracked
flight — `none` when resolution failed (`NotFound`/source failure), else the
instance's actual departure/arrival timestamps. -/
structure FAObs where
  actual_off : Option Int
  actual_on : Option Int
deriving DecidableEq, Repr

inductive Notif where
  | takeoff : Notif
  | landing : Notif
deriving DecidableEq, Repr

/-- Modelled from the spec: one Milestone Tracker poll tick for one record
(§4.4).  State `none` means the record has been deleted.  On a failed
resolution: no state change, no notification.  Otherwise: if an actual
departure is present and `departureNotified` is false, emit takeoff and set
the flag; if an actual arrival is present, emit landing and delete. -/
def tickTF (st : Option TrackedFlight) (obs : Option FAObs) :
    Option TrackedFlight × List Notif :=
  match st, obs with
  | none, _ => (none, [])
  | some tf, none => (some tf, [])
  | some tf, some o =>
    let dep := o.actual_off.isSome && !tf.departureNotified
    let tf1 := if dep then { tf with departureNotified := true } else tf
    let ns1 := if dep then [Notif.takeoff] else []
    if o.actual_on.isSome then (none, ns1 ++ [Notif.landing])
    else (some tf1, ns1)

/-- One tick of a trace: the record before the tick, the notifications the
tick emitted, and the record after the tick. -/
structure TickRec where
  pre : Option TrackedFlight
  notifs : List Notif
  post : Option TrackedFlight
deriving DecidableEq, Repr

/-- Modelled from the spec: run the tracker over a sequence of per-tick
observations, collecting each tick's record. -/
def traceTF (st : Option TrackedFlight) : List (Option FAObs) → List TickRec
  | [] => []
  | o :: os =>
    let r := tickTF st o
    { pre := st, notifs := r.2, post := r.1 } :: traceTF r.1 os

/-- Number of ticks on which a takeoff notification was emitted. -/
def takeoffTicks (tr : List TickRec) : Nat :=
  tr.countP (fun e => decide (Notif.takeoff ∈ e.notifs))

/-! ## Concrete inputs used by witnesses and counterexamples -/

def c1f : FAFlight :=
  { scheduled_off := some (utc 2025 3 10 15 0), estimated_off := none,
    actual_on := none, status := some "Scheduled",
    fa_flight_id := some "DAL882-1741388400" }

def c1resp : FAResponse := { status_code := 200, flights := [c1f] }

def c4resp : FAResponse :=
  { status_code := 200,
    flights :=
      [{ scheduled_off := some (utc 2025 3 9 15 0), estimated_off := none,
         actual_on := some (utc 2025 3 9 23 30), status := some "Arrived",
         fa_flight_id := none },
       { scheduled_off := some (utc 2025 3 10 15 0), estimated_off := none,
         actual_on := none, status := some "Scheduled", fa_flight_id := none }] }

def c4sched : FAFlight :=
  { scheduled_off := some (utc 2025 3 10 15 0), estimated_off := none,
    actual_on := none, status := some "Scheduled", fa_flight_id := none }

def c10resp : FAResponse :=
  { status_code := 200,
    flights := [{ scheduled_off := none, estimated_off := none, actual_on := none,
                  status := some "Scheduled", fa_flight_id := none }] }

def c5L1 : Leg :=
  { date := "9999-12-31", flight := "ZZ901", reg := none, origin := "AAA", dest := "BBB",
    dist := none, sched_dep := "garbage", sched_arr := "", airline := "ZZZ",
    aircraft := "A320", seat := none }

def c5L2 : Leg :=
  { date := "9999-12-31", flight := "ZZ902", reg := none, origin := "AAA", dest := "BBB",
    dist := none, sched_dep := "23:59:59.999999", sched_arr := "", airline := "ZZZ",
    aircraft := "A320", seat := none }

def c7row : List String :=
  ["2025-03-10", "DL882", "", "SAN", "JFK", "", "08:00", "16:45", "DAL", "B764", ""]

def c2init : Option TrackedFlight :=
  some { channel := 1, flight := "DL882", fdate := "2025-03-10",
         departureNotified := false }

def c2obs : List (Option FAObs) :=
  [none,
   some { actual_off := none, actual_on := none },
   some { actual_off := some (utc 2025 3 10 15 12), actual_on := none },
   some { actual_off := some (utc 2025 3 10 15 12), actual_on := none },
   some { actual_off := some (utc 2025 3 10 15 12),
          actual_on := some (utc 2025 3 10 23 45) }]

def c2lastTick : TickRec :=
  { pre := some { channel := 1, flight := "DL882", fdate := "2025-03-10",
                  departureNotified := true },
    notifs := [Notif.landing],
    post := none }

/-! ## Helper lemmas -/

/-- The extractor's loop accepts exactly the rows with at least 11 cells. -/
theorem parse_fr24_characterization (rows : List (List String)) :
    parse_fr24 rows = (rows.filter (fun r => decide (11 ≤ r.length))).map rowToLeg := by
  induction rows with
  | nil => rfl
  | cons r rest ih =>
    by_cases h : r.length < 11
    · have h' : ¬ (11 ≤ r.length) := Nat.not_le.mpr h
      simp [parse_fr24, h, List.filter_cons, h', ih]
    · have h' : 11 ≤ r.length := Nat.le_of_not_lt h
      simp [parse_fr24, h, List.filter_cons, h', ih]

/-- `orderedInsert` walks past exactly the elements with strictly smaller
key, so filtering any one key value commutes with it. -/
theorem filter_orderedInsert_leg (a : Leg) (k : Nat) (l : List Leg) :
    (List.orderedInsert legKeyLe a l).filter (fun f => decide (flight_dt f = k)) =
      if flight_dt a = k then a :: l.filter (fun f => decide (flight_dt f = k))
      else l.filter (fun f => decide (flight_dt f = k)) := by
  induction l with
  | nil => by_cases h : flight_dt a = k <;> simp [List.orderedInsert, h]
  | cons b l ih =>
    by_cases hab : legKeyLe a b
    · by_cases h : flight_dt a = k <;>
        simp [List.orderedInsert, hab, h, List.filter_cons]
    · have hba : flight_dt b < flight_dt a := Nat.lt_of_not_le hab
      by_cases h : flight_dt a = k
      · have hbk : ¬ (flight_dt b = k) := by omega
        simp [List.orderedInsert, hab, List.filter_cons, hbk, ih, h]
      · by_cases hb : flight_dt b = k <;>
          simp [List.orderedInsert, hab, List.filter_cons, hb, ih, h]

/-- Stability of the selector's sort: for every key value, the equal-key
elements appear in the sorted list in their original relative order. -/
theorem sortK_stable (l : List Leg) (k : Nat) :
    (sortK l).filter (fun f => decide (flight_dt f = k)) =
      l.filter (fun f => decide (flight_dt f = k)) := by
  induction l with
  | nil => rfl
  | cons a l ih =>
    show (List.orderedInsert legKeyLe a (List.insertionSort legKeyLe l)).filter _ = _
    rw [filter_orderedInsert_leg]
    by_cases h : flight_dt a = k <;> simp [h, List.filter_cons, ← ih, sortK]

/-- Every collected candidate has not landed, has a scheduled-or-estimated
departure equal to the pair's instant, and departs locally on `target`. -/
theorem faCandidates_mem (target : Date) (fs : List FAFlight) :
    ∀ p ∈ faCandidates target fs,
      p.2.actual_on = none ∧ schedOrEst p.2 = some p.1 ∧ localDate p.1 = target := by
  induction fs with
  | nil => simp [faCandidates]
  | cons f fs ih =>
    intro p hp
    by_cases hon : f.actual_on.isSome
    · exact ih p (by simpa [faCandidates, hon] using hp)
    · cases hoff : schedOrEst f with
      | none => exact ih p (by simpa [faCandidates, hon, hoff] using hp)
      | some off =>
        by_cases hd : localDate off ≠ target
        · exact ih p (by simpa [faCandidates, hon, hoff, hd] using hp)
        · have hp' : p = (off, f) ∨ p ∈ faCandidates target fs := by
            simpa [faCandidates, hon, hoff, hd] using hp
          rcases hp' with rfl | h
          · exact ⟨Option.not_isSome_iff_eq_none.mp hon, hoff, not_not.mp hd⟩
          · exact ih p h

/-- A flight with neither a scheduled nor an estimated departure is skipped,
whatever else it contains. -/
theorem faCandidates_nil_of_no_dep (target : Date) (fs : List FAFlight)
    (h : ∀ f ∈ fs, schedOrEst f = none) : faCandidates target fs = [] := by
  induction fs with
  | nil => rfl
  | cons f fs ih =>
    have hf : schedOrEst f = none := h f (by simp)
    have ht := ih (fun g hg => h g (by simp [hg]))
    by_cases hon : f.actual_on.isSome <;> simp [faCandidates, hon, hf, ht]

/-- A returned instance is the second component of some collected candidate. -/
theorem get_fa_instance_on_mem (target : Date) (resp : FAResponse) (f : FAFlight)
    (h : get_fa_instance_on target resp = some f) :
    ∃ t, (t, f) ∈ faCandidates target resp.flights := by
  unfold get_fa_instance_on at h
  by_cases hs : resp.status_code ≠ 200
  · simp [hs] at h
  · simp only [hs, if_false, if_neg] at h
    by_cases he : (faCandidates target resp.flights).isEmpty
    · simp [he] at h
    · simp only [he, if_false, Bool.false_eq_true] at h
      obtain ⟨c, hc, hcf⟩ := Option.map_eq_some'.mp h
      have hmem : c ∈ List.insertionSort candKeyLe (faCandidates target resp.flights) := by
        cases hh : List.insertionSort candKeyLe (faCandidates target resp.flights) with
        | nil => rw [hh] at hc; cases hc
        | cons x xs =>
          rw [hh] at hc
          simp only [List.head?] at hc
          cases hc
          simp [hh]
      have : c ∈ faCandidates target resp.flights :=
        (List.perm_insertionSort candKeyLe (faCandidates target resp.flights)).subset hmem
      exact ⟨c.1, by rw [← hcf]; simpa using this⟩

/-- Once the record is gone or its flag is set, no tick ever emits takeoff. -/
theorem takeoffTicks_zero (os : List (Option FAObs)) :
    ∀ st : Option TrackedFlight,
      (st = none ∨ ∃ tf, st = some tf ∧ tf.departureNotified = true) →
      takeoffTicks (traceTF st os) = 0 := by
  induction os with
  | nil => intro st _; rfl
  | cons o os ih =>
    intro st h
    rcases h with rfl | ⟨tf, rfl, hflag⟩
    · simpa [traceTF, tickTF, takeoffTicks, List.countP_cons] using
        ih none (Or.inl rfl)
    · cases o with
      | none =>
        simpa [traceTF, tickTF, takeoffTicks, List.countP_cons] using
          ih (some tf) (Or.inr ⟨tf, rfl, hflag⟩)
      | some ob =>
        by_cases hon : ob.actual_on.isSome
        · simpa [traceTF, tickTF, hflag, hon, takeoffTicks, List.countP_cons] using
            ih none (Or.inl rfl)
        · simpa [traceTF, tickTF, hflag, hon, takeoffTicks, List.countP_cons] using
            ih (some tf) (Or.inr ⟨tf, rfl, hflag⟩)

theorem traceTF_cons (st : Option TrackedFlight) (o : Option FAObs)
    (os : List (Option FAObs)) :
    traceTF st (o :: os) =
      { pre := st, notifs := (tickTF st o).2, post := (tickTF st o).1 }
        :: traceTF (tickTF st o).1 os := rfl

theorem takeoffTicks_cons (e : TickRec) (tr : List TickRec) :
    takeoffTicks (e :: tr) =
      takeoffTicks tr + (if Notif.takeoff ∈ e.notifs then 1 else 0) := by
  simp [takeoffTicks, List.countP_cons]

/-- A tick that emits takeoff leaves the record deleted or flagged. -/
theorem post_flagged_of_takeoff (st : Option TrackedFlight) (o : Option FAObs)
    (h : Notif.takeoff ∈ (tickTF st o).2) :
    (tickTF st o).1 = none ∨
      ∃ tf, (tickTF st o).1 = some tf ∧ tf.departureNotified = true := by
  cases st with
  | none => simp [tickTF] at h
  | some tf =>
    cases o with
    | none => simp [tickTF] at h
    | some ob =>
      by_cases hdep : ob.actual_off.isSome && !tf.departureNotified
      · by_cases hon : ob.actual_on.isSome
        · left; simp [tickTF, hdep, hon]
        · right
          refine ⟨{ tf with departureNotified := true }, ?_, rfl⟩
          simp [tickTF, hdep, hon]
      · by_cases hon : ob.actual_on.isSome
        · simp [tickTF, hdep, hon] at h
        · simp [tickTF, hdep, hon] at h

/-- The takeoff notification fires on at most one tick of any trace. -/
theorem takeoffTicks_le_one (os : List (Option FAObs)) :
    ∀ st : Option TrackedFlight, takeoffTicks (traceTF st os) ≤ 1 := by
  induction os with
  | nil => intro st; exact Nat.zero_le 1
  | cons o os ih =>
    intro st
    rw [traceTF_cons, takeoffTicks_cons]
    by_cases hto : Notif.takeoff ∈ (tickTF st o).2
    · rw [if_pos hto]
      have hz := takeoffTicks_zero os _ (post_flagged_of_takeoff st o hto)
      omega
    · rw [if_neg hto]
      have := ih (tickTF st o).1
      omega

/-- One tick emits a landing notification exactly when it deletes the record. -/
theorem landing_iff_deletes (st : Option TrackedFlight) (o : Option FAObs) :
    Notif.landing ∈ (tickTF st o).2 ↔ (st.isSome = true ∧ (tickTF st o).1 = none) := by
  cases st with
  | none => simp [tickTF]
  | some tf =>
    cases o with
    | none => simp [tickTF]
    | some ob =>
      by_cases hdep : ob.actual_off.isSome && !tf.departureNotified <;>
        by_cases hon : ob.actual_on.isSome <;>
          simp [tickTF, hdep, hon]

/-- Every tick of every trace emits landing exactly when it deletes. -/
theorem landing_trace (os : List (Option FAObs)) :
    ∀ st : Option TrackedFlight, ∀ e ∈ traceTF st os,
      (Notif.landing ∈ e.notifs ↔ (e.pre.isSome = true ∧ e.post = none)) := by
  induction os with
  | nil => intro st e he; cases he
  | cons o os ih =>
    intro st e he
    have he' : e = { pre := st, notifs := (tickTF st o).2, post := (tickTF st o).1 }
        ∨ e ∈ traceTF (tickTF st o).1 os := by
      simpa [traceTF] using he
    rcases he' with rfl | h
    · exact landing_iff_deletes st o
    · exact ih _ e h

theorem insertionSort_head_some (cands : List (Int × FAFlight)) (hne : cands ≠ []) :
    ∃ c, (List.insertionSort candKeyLe cands).head? = some c := by
  cases hh : List.insertionSort candKeyLe cands with
  | nil =>
    have hlen := (List.perm_insertionSort candKeyLe cands).length_eq
    rw [hh] at hlen
    exact absurd (List.length_eq_zero.mp hlen.symm) hne
  | cons c cs => exact ⟨c, rfl⟩

/-! ## Claims -/

/-- C1: any instance returned by the resolver for a requested local date has
a scheduled-or-estimated departure whose local calendar date — in the
operator's timezone — equals the requested date exactly; an instance
departing on an adjacent date is never returned, whatever the response
window contained. -/
theorem C1_resolver_strict_same_day (fr24_date : String) (resp : FAResponse)
    (f : FAFlight) (h : get_fa_instance fr24_date resp = some (some f)) :
    ∃ target off, parse_date fr24_date = some target ∧
      schedOrEst f = some off ∧ localDate off = target := by
  unfold get_fa_instance at h
  cases hp : parse_date fr24_date with
  | none => rw [hp] at h; cases h
  | some target =>
    rw [hp] at h
    have h' : get_fa_instance_on target resp = some f := by simpa using h
    obtain ⟨t, ht⟩ := get_fa_instance_on_mem target resp f h'
    have hm := faCandidates_mem target resp.flights (t, f) ht
    exact ⟨target, t, rfl, hm.2.1, hm.2.2⟩

theorem C1_witness :
    get_fa_instance "2025-03-10" c1resp = some (some c1f) ∧
    ∃ target off, parse_date "2025-03-10" = some target ∧
      schedOrEst c1f = some off ∧ localDate off = target :=
  ⟨by decide, C1_resolver_strict_same_day "2025-03-10" c1resp c1f (by decide)⟩

/-- C4: a candidate with a non-null actual arrival is filtered out and can
never be the resolver's result; and on a window holding an already-landed
`DL882` instance of 2025-03-09 next to the scheduled 2025-03-10 instance,
only the scheduled 2025-03-10 instance is returned. -/
theorem C4_resolver_excludes_landed :
    (∀ (target : Date) (resp : FAResponse) (f : FAFlight),
      get_fa_instance_on target resp = some f → f.actual_on = none) ∧
    get_fa_instance_on { y := 2025, m := 3, d := 10 }
        { status_code := 200,
          flights :=
            [{ scheduled_off := some (utc 2025 3 9 15 0), estimated_off := none,
               actual_on := some (utc 2025 3 9 23 30), status := some "Arrived",
               fa_flight_id := none },
             { scheduled_off := some (utc 2025 3 10 15 0), estimated_off := none,
               actual_on := none, status := some "Scheduled", fa_flight_id := none }] } =
      some { scheduled_off := some (utc 2025 3 10 15 0), estimated_off := none,
             actual_on := none, status := some "Scheduled", fa_flight_id := none } := by
  constructor
  · intro target resp f h
    obtain ⟨t, ht⟩ := get_fa_instance_on_mem target resp f h
    exact (faCandidates_mem target resp.flights (t, f) ht).1
  · decide

theorem C4_witness : c4sched.actual_on = none :=
  C4_resolver_excludes_landed.1 { y := 2025, m := 3, d := 10 } c4resp c4sched (by decide)

/-- C6: past a parsed request date, the resolver yields `none` exactly when
the window query response is non-success (auth/rate-limit included) or no
candidate survives the filtering loop; in every other case it yields some
instance, and no other failure outcome exists. -/
theorem C6_resolver_error_handling (target : Date) (resp : FAResponse) :
    get_fa_instance_on target resp = none ↔
      (resp.status_code ≠ 200 ∨ faCandidates target resp.flights = []) := by
  by_cases hs : resp.status_code ≠ 200
  · simp [get_fa_instance_on, hs]
  · by_cases he : faCandidates target resp.flights = []
    · simp [get_fa_instance_on, hs, he]
    · have hie : (faCandidates target resp.flights).isEmpty = false := by
        cases hcand : faCandidates target resp.flights with
        | nil => exact absurd hcand he
        | cons a l => rfl
      obtain ⟨c, hc⟩ := insertionSort_head_some _ he
      simp [get_fa_instance_on, hs, he, hie, hc]

/-- C10 (implicit): the resolver never returns an instance with neither a
scheduled nor an estimated departure timestamp; such candidates are skipped,
so a window containing only such instances resolves to `none`. -/
theorem C10_resolver_requires_departure (target : Date) (resp : FAResponse) :
    (∀ f : FAFlight, get_fa_instance_on target resp = some f →
      (schedOrEst f).isSome = true) ∧
    ((∀ f ∈ resp.flights, schedOrEst f = none) →
      get_fa_instance_on target resp = none) := by
  constructor
  · intro f h
    obtain ⟨t, ht⟩ := get_fa_instance_on_mem target resp f h
    have := (faCandidates_mem target resp.flights (t, f) ht).2.1
    simp [this]
  · intro h
    have hnil := faCandidates_nil_of_no_dep target resp.flights h
    by_cases hs : resp.status_code ≠ 200 <;> simp [get_fa_instance_on, hs, hnil]

theorem C10_witness :
    get_fa_instance_on { y := 2025, m := 3, d := 10 } c10resp = none :=
  (C10_resolver_requires_departure { y := 2025, m := 3, d := 10 } c10resp).2 (by decide)

/-- C3 counterexample: a row with 11 cells whose first cell is not a
`YYYY-MM-DD` date is emitted anyway — `parse_fr24` checks only the column
count, so the claimed date-pattern acceptance check does not exist. -/
theorem C3_counterexample :
    parse_fr24 [["TOTAL", "547 flights", "", "", "", "", "", "", "", "", ""]] =
      [{ date := "TOTAL", flight := "547 flights", reg := none, origin := "",
         dest := "", dist := none, sched_dep := "", sched_arr := "", airline := "",
         aircraft := "", seat := none }] ∧
    isYYYYMMDD "TOTAL" = false := by
  exact ⟨rfl, rfl⟩

/-- C3 (amended): a row is emitted as a ScheduleLeg exactly when it has at
least the minimum required column count (11); the date field is the first
cell copied verbatim, with no `YYYY-MM-DD` pattern check, so a malformed
date in a wide-enough row does appear in the output, while rows below the
column threshold are silently skipped. -/
theorem C3_extractor_row_acceptance (rows : List (List String)) :
    parse_fr24 rows = (rows.filter (fun r => decide (11 ≤ r.length))).map rowToLeg :=
  parse_fr24_characterization rows

/-- C7 counterexample: a 10-cell row — one missing only the trailing seat
column — is dropped entirely, and an accepted row's empty seat cell becomes
`None`, not `"unknown"`. -/
theorem C7_counterexample :
    parse_fr24 [["2025-03-10", "DL882", "N839MH", "SAN", "JFK", "2446",
        "08:00", "16:45", "DAL", "B764"]] = [] ∧
    (parse_fr24 [["2025-03-10", "DL882", "", "SAN", "JFK", "",
        "08:00", "16:45", "DAL", "B764", ""]]).map Leg.seat = [none] := by
  exact ⟨rfl, rfl⟩

/-- C7 (amended): for every accepted row (at least 11 cells), empty
registration, distance, or seat cells default to `None` — not `"unknown"` —
without dropping the row; but a row with fewer than 11 cells, even one
missing only the trailing seat column, is dropped entirely. -/
theorem C7_optional_column_defaulting (rows : List (List String))
    (r : List String) (hr : r ∈ rows) :
    (11 ≤ r.length →
      rowToLeg r ∈ parse_fr24 rows ∧
      (r.getD 2 "" = "" → (rowToLeg r).reg = none) ∧
      (r.getD 5 "" = "" → (rowToLeg r).dist = none) ∧
      (r.getD 10 "" = "" → (rowToLeg r).seat = none)) ∧
    (r.length < 11 → parse_fr24 [r] = []) := by
  constructor
  · intro h
    refine ⟨?_, ?_, ?_, ?_⟩
    · rw [parse_fr24_characterization]
      exact List.mem_map_of_mem _ (List.mem_filter.mpr ⟨hr, by simpa using h⟩)
    · intro he; simp [List.getD] at he; simp [rowToLeg, optStr, he]
    · intro he; simp [List.getD] at he; simp [rowToLeg, optStr, he]
    · intro he; simp [List.getD] at he; simp [rowToLeg, optStr, he]
  · intro h
    simp [parse_fr24, h]

theorem C7_witness :
    rowToLeg c7row ∈ parse_fr24 [c7row] ∧ (rowToLeg c7row).seat = none := by
  have h := C7_optional_column_defaulting [c7row] c7row (by simp)
  have h2 := h.1 (by decide)
  exact ⟨h2.1, h2.2.2.2 (by decide)⟩

/-- C9: when the selector yields no upcoming leg, the rendered payload is
exactly the "no upcoming flights" placeholder embed, for every lookup table,
clock value, enrichment result, and "after" leg — rendering is total and
cannot fail the tick. -/
theorem C9_empty_schedule_placeholder (L : Lookups) (now : Int)
    (fa : Option FAFlight) (after : Option Leg) :
    status_embed L now none fa after =
      { title := "üß≠ Hana‚Äôs Next Flight",
        description := some "No upcoming flights detected.",
        fields := [], footer := none } := rfl

/-- C5 counterexample: a leg whose fields fail to parse is keyed
`datetime.max`, so it ties with — and, by sort stability, stays *before* —
an earlier-listed parseable leg departing exactly at `datetime.max`; the
claim requires every unparseable leg to sort after all parseable ones, which
would return the swapped pair. -/
theorem C5_counterexample :
    parse_dt (c5L1.date ++ " " ++ c5L1.sched_dep) = none ∧
    (parse_dt (c5L2.date ++ " " ++ c5L2.sched_dep)).isSome = true ∧
    get_next_two_flights "2025-01-01" [c5L1, c5L2] = (some c5L1, some c5L2) ∧
    specNextTwo "2025-01-01" [c5L1, c5L2] = (some c5L2, some c5L1) ∧
    c5L1 ≠ c5L2 :=
  ⟨by decide, by decide, by decide, by decide, by decide⟩

/-- C5 (amended): for every leg list and current date, the selector filters
to legs whose date is lexicographically ≥ today, returns `(none, none)` when
that filter is empty, and otherwise the first two elements of a stable sort
of the filtered legs, ascending by the parsed date-plus-departure-time key
in which a leg whose fields fail to parse receives the maximum representable
timestamp (`datetime.max`) as its key — thereby sorting after every leg with
a strictly smaller key, but tying (in original order) with a parseable leg
keyed exactly at that maximum; the selection is total and never crashes. -/
theorem C5_selector_contract (today : String) (flights : List Leg) :
    (sortK (futureOf today flights)).Perm (futureOf today flights) ∧
    List.Sorted legKeyLe (sortK (futureOf today flights)) ∧
    (∀ k, (sortK (futureOf today flights)).filter (fun f => decide (flight_dt f = k)) =
      (futureOf today flights).filter (fun f => decide (flight_dt f = k))) ∧
    get_next_two_flights today flights =
      (if (futureOf today flights).isEmpty then (none, none)
       else ((sortK (futureOf today flights)).head?,
             (sortK (futureOf today flights))[1]?)) :=
  ⟨List.perm_insertionSort legKeyLe (futureOf today flights),
   List.sorted_insertionSort legKeyLe (futureOf today flights),
   fun k => sortK_stable (futureOf today flights) k, rfl⟩

/-- C8: the selector is deterministic — two runs on the same legs and the
same "today" return the identical pair — and its sort is stable: legs whose
date-plus-time keys compare equal (two unparseable legs included, which
share the `datetime.max` key) keep their relative order from the extractor's
output. -/
theorem C8_selector_deterministic_stable (today : String) (flights : List Leg) :
    get_next_two_flights today flights = get_next_two_flights today flights ∧
    ∀ k, (sortK (futureOf today flights)).filter (fun f => decide (flight_dt f = k)) =
      flights.filter (fun f => pyLe today f.date && decide (flight_dt f = k)) := by
  refine ⟨rfl, fun k => ?_⟩
  rw [sortK_stable]
  simp only [futureOf, List.filter_filter]
  congr 1
  funext f
  exact Bool.and_comm _ _

/-- C2 (spec-modelled): for any TrackedFlight record and any sequence of
poll-tick observations, a takeoff notification is emitted on at most one
tick of the record's lifetime, and a landing notification is emitted on
exactly the ticks that delete the record — never before, never after;
re-observing the same instance never re-fires either notification. -/
theorem C2_milestone_at_most_once (init : Option TrackedFlight)
    (obss : List (Option FAObs)) :
    takeoffTicks (traceTF init obss) ≤ 1 ∧
    ∀ e ∈ traceTF init obss,
      (Notif.landing ∈ e.notifs ↔ (e.pre.isSome = true ∧ e.post = none)) :=
  ⟨takeoffTicks_le_one obss init, landing_trace obss init⟩

theorem C2_witness :
    takeoffTicks (traceTF c2init c2obs) ≤ 1 ∧
    (Notif.landing ∈ c2lastTick.notifs ↔
      (c2lastTick.pre.isSome = true ∧ c2lastTick.post = none)) :=
  ⟨(C2_milestone_at_most_once c2init c2obs).1,
   (C2_milestone_at_most_once c2init c2obs).2 c2lastTick (by decide)⟩
